import Mathlib

/-
Shallow embedding of the rpa_simulation_process repository:
- run_robot_json.py : the parallel-block transformer and its detect-then-transform runner
- probe_listener.py : the step-synchronization event protocol (sequence counter, step gate,
  fail-fast abort, duration/log bookkeeping)
- robot_executor.py / main.py : the execution registry and script materializer

JSON documents are modelled by the inductive `Json` below (numbers as integers; the claims
do not involve non-integer numerics).  Python dicts become ordered association lists with
dict-assignment (`assocSet`) replacing in place, matching CPython's insertion-order
semantics.  Wall-clock timestamps are rationals; `time.time()` is threaded into each
lifecycle callback as an explicit argument.
-/

/-- A JSON value, as manipulated by the Python sources. -/
inductive Json where
  | null : Json
  | bool (b : Bool) : Json
  | num (n : Int) : Json
  | str (s : String) : Json
  | arr (elems : List Json) : Json
  | obj (fields : List (String × Json)) : Json

mutual

/-- Structural equality of JSON values (Python `==` on the parsed data). -/
def jsonBeq : Json → Json → Bool
  | Json.null, Json.null => true
  | Json.bool a, Json.bool b => a == b
  | Json.num a, Json.num b => a == b
  | Json.str a, Json.str b => a == b
  | Json.arr a, Json.arr b => jsonBeqList a b
  | Json.obj a, Json.obj b => jsonBeqFields a b
  | _, _ => false

/-- Elementwise equality of JSON arrays. -/
def jsonBeqList : List Json → List Json → Bool
  | [], [] => true
  | x :: xs, y :: ys => jsonBeq x y && jsonBeqList xs ys
  | _, _ => false

/-- Pairwise equality of JSON object field lists. -/
def jsonBeqFields : List (String × Json) → List (String × Json) → Bool
  | [], [] => true
  | (k1, v1) :: r1, (k2, v2) :: r2 => k1 == k2 && jsonBeq v1 v2 && jsonBeqFields r1 r2
  | _, _ => false

end

/-- Python dict lookup `d.get(k)` over an ordered association list. -/
def dictGet {α : Type} : List (String × α) → String → Option α
  | [], _ => none
  | (k0, v) :: rest, k => if k0 = k then some v else dictGet rest k

/-- Python dict assignment `d[k] = v`: replaces in place, preserving insertion order,
appending if the key is absent. -/
def assocSet {κ α : Type} [DecidableEq κ] : List (κ × α) → κ → α → List (κ × α)
  | [], k, v => [(k, v)]
  | (k0, v0) :: rest, k, v =>
      if k0 = k then (k, v) :: rest else (k0, v0) :: assocSet rest k v

/-- Python dict deletion `del d[k]` (guarded by a membership test in the source). -/
def assocRemove {α : Type} (l : List (String × α)) (k : String) : List (String × α) :=
  l.filter fun p => p.1 ≠ k

/-- `item.get(k)` when `item` may be any JSON value: `None` unless `item` is a dict
holding `k`.  (The sources guard dict access with `isinstance(..., dict)` or rely on
well-formed documents.) -/
def getField : Json → String → Option Json
  | Json.obj kvs, k => dictGet kvs k
  | _, _ => none

/-- `item.get(k, default)`. -/
def getD (j : Json) (k : String) (d : Json) : Json := (getField j k).getD d

/-- Python truthiness of a JSON value. -/
def jsonTruthy : Json → Bool
  | Json.null => false
  | Json.bool b => b
  | Json.num n => n != 0
  | Json.str s => s != ""
  | Json.arr xs => !xs.isEmpty
  | Json.obj kvs => !kvs.isEmpty

/-- Coerce a JSON value to the list it is iterated as; non-lists give `[]`
(the sources only iterate fields of well-formed documents). -/
def asArr : Json → List Json
  | Json.arr xs => xs
  | _ => []

/-- `d[k] = v` on a JSON object (used for the in-place import rename). -/
def jsonSetField : Json → String → Json → Json
  | Json.obj kvs, k, v => Json.obj (assocSet kvs k v)
  | j, _, _ => j

/- ===== `str.replace`, `json.dumps` and the Robot-variable escaping ===== -/

/-- Left-to-right non-overlapping replacement over character lists; the fuel is the
input length, which every step strictly decreases, so it never runs out. -/
def replaceListFuel (pat rep : List Char) : Nat → List Char → List Char
  | 0, l => l
  | _ + 1, [] => []
  | fuel + 1, c :: cs =>
      if pat.isPrefixOf (c :: cs) then
        rep ++ replaceListFuel pat rep fuel (cs.drop (pat.length - 1))
      else
        c :: replaceListFuel pat rep fuel cs

/-- Python `s.replace(pat, rep)` (all our call sites use a non-empty pattern). -/
def pyReplace (s pat rep : String) : String :=
  if pat.isEmpty then s
  else String.mk (replaceListFuel pat.data rep.data s.data.length s.data)

/-- One hexadecimal digit, lower case. -/
def hexDigit (n : Nat) : Char :=
  if n < 10 then Char.ofNat (48 + n) else Char.ofNat (87 + n)

/-- Four hexadecimal digits, as in Python's `\uXXXX` escapes. -/
def hex4 (n : Nat) : String :=
  String.mk [hexDigit (n / 4096 % 16), hexDigit (n / 256 % 16),
             hexDigit (n / 16 % 16), hexDigit (n % 16)]

/-- `json.dumps` escaping of a single character (`ensure_ascii=False`). -/
def jsonEscapeChar (c : Char) : String :=
  if c = '\"' then "\\\""
  else if c = '\\' then "\\\\"
  else if c = '\n' then "\\n"
  else if c = '\t' then "\\t"
  else if c = '\r' then "\\r"
  else if c.toNat = 8 then "\\b"
  else if c.toNat = 12 then "\\f"
  else if c.toNat < 32 then "\\u" ++ hex4 c.toNat
  else String.mk [c]

/-- A JSON string literal as `json.dumps` renders it. -/
def dumpStringLit (s : String) : String :=
  "\"" ++ String.join (s.data.map jsonEscapeChar) ++ "\""

mutual

/-- `json.dumps(v, ensure_ascii=False)` with the default `", "` / `": "` separators. -/
def dumps : Json → String
  | Json.null => "null"
  | Json.bool b => if b then "true" else "false"
  | Json.num n => toString n
  | Json.str s => dumpStringLit s
  | Json.arr xs => "[" ++ dumpsList xs ++ "]"
  | Json.obj kvs => "\x7b" ++ dumpsFields kvs ++ "\x7d"

/-- Comma-separated array elements. -/
def dumpsList : List Json → String
  | [] => ""
  | [x] => dumps x
  | x :: y :: rest => dumps x ++ ", " ++ dumpsList (y :: rest)

/-- Comma-separated `"key": value` pairs. -/
def dumpsFields : List (String × Json) → String
  | [] => ""
  | [(k, v)] => dumpStringLit k ++ ": " ++ dumps v
  | (k, v) :: q :: rest => dumpStringLit k ++ ": " ++ dumps v ++ ", " ++ dumpsFields (q :: rest)

end

/-- The `.replace("${", "\${").replace("@{", "\@{").replace("&{", "\&{")` chain that
escapes Robot Framework variable sigils in the serialized payloads. -/
def escapeRobot (s : String) : String :=
  pyReplace (pyReplace (pyReplace s "$\x7b" "\\$\x7b") "@\x7b" "\\@\x7b") "&\x7b" "\\&\x7b"

/- ===== run_robot_json.py : detection and transformation ===== -/

/-- `item.get("type") == "PARALLEL"`. -/
def isParallel (item : Json) : Bool :=
  match getField item "type" with
  | some (Json.str s) => s = "PARALLEL"
  | _ => false

/-- `check_body` inside `has_parallel_blocks`: scan one test body. -/
def check_body (body : List Json) : Bool := body.any isParallel

/-- The `tests` list of a document. -/
def testsOf (data : Json) : List Json := asArr (getD data "tests" (Json.arr []))

/-- The `body` list of a test. -/
def bodyOf (t : Json) : List Json := asArr (getD t "body" (Json.arr []))

/-- `has_parallel_blocks(data)`: does any test body contain a PARALLEL node? -/
def has_parallel_blocks (data : Json) : Bool :=
  (testsOf data).any fun t => check_body (bodyOf t)

/-- `parallel_block.get("branches", [])`. -/
def getBranches (block : Json) : List Json := asArr (getD block "branches" (Json.arr []))

/-- The `for i, branch in enumerate(branches)` loop building `branches_data`:
positional names `Branch_<i+1>`, bodies carried verbatim. -/
def branchEntriesAux : Nat → List Json → List Json
  | _, [] => []
  | i, br :: rest =>
      Json.obj [("name", Json.str ("Branch_" ++ toString (i + 1))),
                ("body", getD br "body" (Json.arr []))]
        :: branchEntriesAux (i + 1) rest

/-- `branches_data` for one PARALLEL block. -/
def branchEntries (block : Json) : List Json := branchEntriesAux 0 (getBranches block)

/-- `var_value` handling: falsy values become `[]`, single-element lists are unwrapped
(`var_value[0] if len(var_value) == 1 else var_value`; for a truthy non-list Python's
`len`/`[0]` duck typing is the identity on the strings that occur here). -/
def varValue (var : Json) : Json :=
  let v := getD var "value" (Json.arr [])
  if jsonTruthy v = false then Json.arr []
  else
    match v with
    | Json.arr [x] => x
    | _ => v

/-- Dict assignment for JSON-valued keys, compared with Python equality. -/
def assocSetJ {α : Type} : List (Json × α) → Json → α → List (Json × α)
  | [], k, v => [(k, v)]
  | (k0, v0) :: rest, k, v =>
      if jsonBeq k0 k then (k, v) :: rest else (k0, v0) :: assocSetJ rest k v

/-- The `vars_data` dict: keyed by the truthy `var.get("name", "")` values. -/
def varsData (vars : List Json) : List (Json × Json) :=
  vars.foldl
    (fun acc var =>
      let nm := getD var "name" (Json.str "")
      if jsonTruthy nm then assocSetJ acc nm (varValue var) else acc)
    []

/-- How `json.dumps` renders a dict key (string keys verbatim; other key types are
stringified the way `dumps` renders them). -/
def pyDictKey : Json → String
  | Json.str s => s
  | j => dumps j

/-- `vars_data` with its keys rendered as JSON object keys. -/
def renderVars (l : List (Json × Json)) : List (String × Json) :=
  l.map fun p => (pyDictKey p.1, p.2)

/-- `create_run_parallel_keyword(parallel_block, variables, listener, imports)`. -/
def create_run_parallel_keyword (block : Json) (vars : List Json) (listener : String)
    (imports : List Json) : Json :=
  let branches_json := escapeRobot (dumps (Json.arr (branchEntries block)))
  let variables_json := escapeRobot (dumps (Json.obj (renderVars (varsData vars))))
  let imports_json := escapeRobot (dumps (Json.arr imports))
  Json.obj [("type", Json.str "keyword"), ("name", Json.str "Run Parallel"),
            ("args", Json.arr [Json.str branches_json, Json.str variables_json,
                               Json.str listener, Json.str imports_json])]

/-- One iteration of the `transform_body` loop. -/
def transform_item (vars : List Json) (listener : String) (imports : List Json)
    (item : Json) : Json :=
  if isParallel item then create_run_parallel_keyword item vars listener imports
  else
    Json.obj [("type", Json.str "keyword"),
              ("name", getD item "name" (Json.str "")),
              ("args", getD item "args" (Json.arr []))]

/-- `transform_body(body, variables, listener, imports)`. -/
def transform_body (body : List Json) (vars : List Json) (listener : String)
    (imports : List Json) : List Json :=
  body.map (transform_item vars listener imports)

/-- `input_data.get("resource", {})`. -/
def resourceOf (data : Json) : Json := getD data "resource" (Json.obj [])

/-- `resource.get("variables", [])`. -/
def variablesOf (data : Json) : List Json :=
  asArr (getD (resourceOf data) "variables" (Json.arr []))

/-- `resource.get("imports", [])` (the `list(...)` copy). -/
def importsRawOf (data : Json) : List Json :=
  asArr (getD (resourceOf data) "imports" (Json.arr []))

/-- `v.get("name") and v.get("name") != "${}"`. -/
def validVar (v : Json) : Bool :=
  match getField v "name" with
  | some n =>
      jsonTruthy n && (match n with
                       | Json.str s => s != "$\x7b\x7d"
                       | _ => true)
  | none => false

/-- `valid_variables` of a document. -/
def valid_variables_of (data : Json) : List Json := (variablesOf data).filter validVar

/-- The loop replacing the `RPA.Cloud.Google` import name with `RPA.Google` in place. -/
def replaceGoogleImp (imp : Json) : Json :=
  match getField imp "name" with
  | some (Json.str "RPA.Cloud.Google") => jsonSetField imp "name" (Json.str "RPA.Google")
  | _ => imp

/-- The final `imports` list: after the rename, append `RPA.Parallel` unless already
present in `library_names`. -/
def imports_of (data : Json) : List Json :=
  let imps := (importsRawOf data).map replaceGoogleImp
  if imps.any (fun imp =>
      match getField imp "name" with
      | some (Json.str s) => s = "RPA.Parallel"
      | _ => false)
  then imps
  else imps ++ [Json.obj [("type", Json.str "LIBRARY"), ("name", Json.str "RPA.Parallel")]]

/-- `transform_json(input_data, listener)`. -/
def transform_json (input : Json) (listener : String) : Json :=
  let nm := getD input "name" (Json.str "Main")
  let suite_name := if jsonTruthy nm then nm else Json.str "Main"
  let vv := valid_variables_of input
  let imps := imports_of input
  let suite_resource :=
    if vv.isEmpty then Json.obj [("imports", Json.arr imps)]
    else Json.obj [("imports", Json.arr imps), ("variables", Json.arr vv)]
  let tests := (testsOf input).map fun t =>
    Json.obj [("name", getD t "name" (Json.str "Main")),
              ("body", Json.arr (transform_body (bodyOf t) vv listener imps))]
  Json.obj [("name", suite_name), ("tests", Json.arr tests), ("resource", suite_resource)]

/-- The document-level behaviour of `run_robot` in run_robot_json.py: transform when a
PARALLEL block is detected, otherwise hand the input document to the engine unchanged. -/
def run_robot_doc (input : Json) (listener : String) : Json :=
  if has_parallel_blocks input then transform_json input listener else input

/- ===== probe_listener.py : the step-synchronization event protocol ===== -/

/-- Environment configuration handed to a spawned process (`STEP_MODE`, `PROCESS_ID`). -/
structure Config where
  stepMode : String
  processId : String

/-- One entry of a step's `_log_stack` frame: the `{"level": ..., "message": ...}` dict
built by `log_message`. -/
structure LogEntry where
  level : Option Json
  message : Option Json

/-- An emitted event: the `evt` dict of `emit` — `seq`, timestamp, `type`, `processId`,
then the type-specific payload fields. -/
structure Event where
  seq : Nat
  ts : Rat
  type : String
  processId : String
  payload : List (String × Json)

/-- The listener's module-level mutable state: `_seq`, `_sio` (connection available),
`_tstack`, `_log_stack`, and the `_continue_event` flag.  `waiting` records that the
callback thread is blocked inside `_continue_event.wait()`, and `exited` records an
`os._exit` code: once set, the process is dead and nothing further runs. -/
structure PLState where
  seq : Nat
  sioConnected : Bool
  tstack : List Rat
  logstack : List (List LogEntry)
  continueFlag : Bool
  waiting : Bool
  exited : Option Nat

/-- The listener state right after module load and `__init__`: `_seq = 0`, empty stacks,
and `_continue_event` pre-set exactly when `STEP_MODE == "all"`. -/
def initState (cfg : Config) (connected : Bool) : PLState :=
  { seq := 0, sioConnected := connected, tstack := [], logstack := [],
    continueFlag := cfg.stepMode = "all", waiting := false, exited := none }

/-- `emit(evt_type, **payload)`: bump `_seq` and build the event carrying the new value.
The event is always produced (written to stdout) whether or not the reporting
connection is up; the socket send is fire-and-forget. -/
def emit (cfg : Config) (st : PLState) (evt_type : String) (t : Rat)
    (payload : List (String × Json)) : PLState × Event :=
  ({st with seq := st.seq + 1},
   { seq := st.seq + 1, ts := t, type := evt_type, processId := cfg.processId,
     payload := payload })

/-- Render an optional value the way `json.dumps` renders `None`. -/
def optJson : Option Json → Json
  | none => Json.null
  | some j => j

/-- A `_log_stack` entry as it appears in event payloads. -/
def logEntryJson (e : LogEntry) : Json :=
  Json.obj [("level", optJson e.level), ("message", optJson e.message)]

/-- `_status_success(status)`. -/
def status_success : Option Json → String
  | some (Json.str "PASS") => "SUCCESS"
  | _ => "ERROR"

/-- The `status == "FAIL"` test guarding the fatal abort. -/
def isFailStatus : Option Json → Bool
  | some (Json.str "FAIL") => true
  | _ => false

/-- `os.path.basename` for the paths occurring here. -/
def pyBasename (s : String) : String := ((s.splitOn "/").getLast?).getD s

/-- The root part of `os.path.splitext`: strip the trailing extension unless the dot
only leads the name. -/
def pySplitextRoot (s : String) : String :=
  let cs := s.data
  let leading := cs.takeWhile fun c => c = '.'
  let rest := cs.dropWhile fun c => c = '.'
  if rest.contains '.' then
    String.mk (leading ++ ((rest.reverse.dropWhile fun c => c ≠ '.').drop 1).reverse)
  else s

/-- `_suite_display_name(name, attrs)`. -/
def suite_display_name (name : String) (attrs : Json) : String :=
  if name ≠ "" then name
  else
    match getField attrs "source" with
    | some (Json.str s) => if s ≠ "" then pySplitextRoot (pyBasename s) else ""
    | _ => ""

/-- `_kw_display_name(name, attrs)`: `attrs.get("kwname") or name`. -/
def kw_display_name (name : String) (attrs : Json) : Json :=
  match attrs with
  | Json.obj _ =>
      let k := (getField attrs "kwname").getD Json.null
      if jsonTruthy k then k else Json.str name
  | _ => Json.str name

/-- `_kw_lib(attrs)`. -/
def kw_lib (attrs : Json) : Option Json := getField attrs "libname"

/-- `_kw_args(attrs)`: `list(attrs.get("args", []))`, `[]` on failure. -/
def kw_args (attrs : Json) : List Json := asArr (getD attrs "args" (Json.arr []))

/-- `start_suite` callback. -/
def start_suite (cfg : Config) (st : PLState) (name : String) (attrs : Json) (t : Rat) :
    PLState × Event :=
  emit cfg st "RUN_START" t
    [("suite", Json.obj [("name", Json.str (suite_display_name name attrs))])]

/-- `end_suite` callback: emit RUN_END, then disconnect the reporting connection. -/
def end_suite (cfg : Config) (st : PLState) (name : String) (attrs : Json) (t : Rat) :
    PLState × Event :=
  let r := emit cfg st "RUN_END" t
    [("suite", Json.obj [("name", Json.str (suite_display_name name attrs))]),
     ("status", Json.str (status_success (getField attrs "status")))]
  ({r.1 with sioConnected := false}, r.2)

/-- `start_test` callback. -/
def start_test (cfg : Config) (st : PLState) (name : String) (attrs : Json) (t : Rat) :
    PLState × Event :=
  emit cfg st "TEST_START" t
    [("test", Json.obj [("name", Json.str name),
                        ("tags", Json.arr (asArr (getD attrs "tags" (Json.arr []))))])]

/-- `end_test` callback. -/
def end_test (cfg : Config) (st : PLState) (name : String) (attrs : Json) (t : Rat) :
    PLState × Event :=
  emit cfg st "TEST_END" t
    [("test", Json.obj [("name", Json.str name)]),
     ("status", Json.str (status_success (getField attrs "status"))),
     ("data", Json.obj [("message", getD attrs "message" (Json.str ""))])]

/-- `start_keyword` callback: push the start time and a fresh log frame, then emit
STEP_START. -/
def start_keyword (cfg : Config) (st : PLState) (name : String) (attrs : Json) (t : Rat) :
    PLState × Event :=
  let st1 := {st with tstack := t :: st.tstack, logstack := [] :: st.logstack}
  emit cfg st1 "STEP_START" t
    [("step", Json.obj [("id", kw_display_name name attrs),
                        ("name", kw_display_name name attrs)]),
     ("data", Json.obj [("lib", optJson (kw_lib attrs)),
                        ("args", Json.arr (kw_args attrs))])]

/-- Python `int(q)`: truncation toward zero. -/
def pyInt (q : Rat) : Int := if 0 ≤ q then ⌊q⌋ else -⌊-q⌋

/-- `end_keyword` callback: pop the matching start time and log frame, emit STEP_END
with duration/status/first-message/logs, then either fatally abort on `"FAIL"`
(disconnect and `os._exit(1)`) or run the step gate under `STEP_MODE == "step"`
(`_continue_event.wait()` then `.clear()`; `waiting` marks a blocked wait). -/
def end_keyword (cfg : Config) (st : PLState) (name : String) (attrs : Json) (t : Rat) :
    PLState × Event :=
  let t0 : Option Rat := st.tstack.head?
  let step_logs : List LogEntry := (st.logstack.head?).getD []
  let st1 := {st with tstack := st.tstack.tail, logstack := st.logstack.tail}
  let duration_ms : Option Int :=
    match t0 with
    | some v => if v = 0 then none else some (pyInt ((t - v) * 1000))
    | none => none
  let status := getField attrs "status"
  let message : Option Json :=
    match step_logs with
    | [] => none
    | e :: _ => e.message
  let kwname := kw_display_name name attrs
  let r := emit cfg st1 "STEP_END" t
    [("step", Json.obj [("id", kwname), ("name", kwname)]),
     ("status", Json.str (status_success status)),
     ("data", Json.obj [("durationMs", match duration_ms with
                                       | none => Json.null
                                       | some d => Json.num d),
                        ("message", optJson message),
                        ("args", Json.arr (kw_args attrs)),
                        ("logs", Json.arr (step_logs.map logEntryJson))])]
  let st2 :=
    if isFailStatus status then {r.1 with sioConnected := false, exited := some 1}
    else if cfg.stepMode = "step" then
      if r.1.continueFlag then {r.1 with continueFlag := false, waiting := false}
      else {r.1 with waiting := true}
    else r.1
  (st2, r.2)

/-- `log_message` callback: build the log entry, append it to the top frame (if any),
and emit STEP_LOG.  (`str(message)` for a non-dict payload is rendered via `dumps`.) -/
def log_message (cfg : Config) (st : PLState) (message : Json) (t : Rat) :
    PLState × Event :=
  let lvl : Option Json :=
    match message with
    | Json.obj _ => getField message "level"
    | _ => none
  let msg : Option Json :=
    match message with
    | Json.obj _ => getField message "message"
    | _ => some (Json.str (dumps message))
  let entry : LogEntry := ⟨lvl, msg⟩
  let st1 := {st with logstack := match st.logstack with
                                  | [] => []
                                  | top :: rest => (top ++ [entry]) :: rest}
  emit cfg st1 "STEP_LOG" t [("data", logEntryJson entry)]

/-- The `continueStep` handler on the reporting connection's background thread:
`_continue_event.set()`.  If the callback thread is blocked in a wait, the wait
returns and immediately clears the flag; otherwise the flag stays set for the next
wait. -/
def on_continue_step (st : PLState) : PLState :=
  if st.waiting then {st with waiting := false, continueFlag := false}
  else {st with continueFlag := true}

/-- The lifecycle callbacks (and continuation signals) a spawned process receives,
each engine callback carrying the wall-clock time at which it ran. -/
inductive Callback where
  | startSuite (name : String) (attrs : Json) (t : Rat)
  | endSuite (name : String) (attrs : Json) (t : Rat)
  | startTest (name : String) (attrs : Json) (t : Rat)
  | endTest (name : String) (attrs : Json) (t : Rat)
  | startKeyword (name : String) (attrs : Json) (t : Rat)
  | endKeyword (name : String) (attrs : Json) (t : Rat)
  | logMessage (message : Json) (t : Rat)
  | continueSignal

/-- Dispatch one callback to its handler, returning the events it emits. -/
def stepCb (cfg : Config) (st : PLState) : Callback → PLState × List Event
  | Callback.startSuite name attrs t =>
      ((start_suite cfg st name attrs t).1, [(start_suite cfg st name attrs t).2])
  | Callback.endSuite name attrs t =>
      ((end_suite cfg st name attrs t).1, [(end_suite cfg st name attrs t).2])
  | Callback.startTest name attrs t =>
      ((start_test cfg st name attrs t).1, [(start_test cfg st name attrs t).2])
  | Callback.endTest name attrs t =>
      ((end_test cfg st name attrs t).1, [(end_test cfg st name attrs t).2])
  | Callback.startKeyword name attrs t =>
      ((start_keyword cfg st name attrs t).1, [(start_keyword cfg st name attrs t).2])
  | Callback.endKeyword name attrs t =>
      ((end_keyword cfg st name attrs t).1, [(end_keyword cfg st name attrs t).2])
  | Callback.logMessage message t =>
      ((log_message cfg st message t).1, [(log_message cfg st message t).2])
  | Callback.continueSignal => (on_continue_step st, [])

/-- The event trace of one process lifetime: callbacks are processed in order, and
`os._exit` (a set `exited` code) kills the process — nothing after it runs or emits. -/
def runCbs (cfg : Config) : PLState → List Callback → List Event
  | _, [] => []
  | st, cb :: rest =>
      match st.exited with
      | some _ => []
      | none => (stepCb cfg st cb).2 ++ runCbs cfg (stepCb cfg st cb).1 rest

/- ===== robot_executor.py / main.py : registry, spawn, materializer ===== -/

/-- One entry of `self.running_processes` (the opaque `process` handle is carried by
its pid). -/
structure ExecInfo where
  execution_id : String
  pid : Nat
  started_at : Rat
  robot_file : String
  step_mode : String
deriving DecidableEq

/-- The Execution Registry: `self.running_processes`. -/
abbrev Registry : Type := List (String × ExecInfo)

/-- `self.running_processes[process_id] = {...}` — plain dict assignment. -/
def registerExecution (reg : Registry) (process_id : String) (info : ExecInfo) : Registry :=
  assocSet reg process_id info

/-- `self.running_processes.get(process_id)` via membership tests. -/
def registryGet (reg : Registry) (process_id : String) : Option ExecInfo :=
  dictGet reg process_id

/-- `del self.running_processes[process_id]` (guarded by `in`). -/
def registryRemove (reg : Registry) (process_id : String) : Registry :=
  assocRemove reg process_id

/-- A spawn failure raised by `subprocess.Popen` (executable missing, permission
denied, ...). -/
inductive SpawnErr where
  | fileNotFound (msg : String)
  | permissionDenied (msg : String)
deriving DecidableEq

/-- `RobotExecutor.run_robot`, threaded over the registry state.  `credentials_dir`
is the (already-swallowed) outcome of `setup_connections`; `spawn` is the outcome of
`subprocess.Popen`; `return_code` is the child's eventual exit status.  The source
registers the execution only after `Popen` returns, streams output, waits, and then
deregisters; a `Popen` exception propagates before any registry write. -/
def run_robot_exec (reg : Registry) (process_id robot_file step_mode execution_id : String)
    (started_at : Rat) (_credentials_dir : Option String) (spawn : Except SpawnErr Nat)
    (return_code : Int) : Registry × Except SpawnErr Int :=
  match spawn with
  | Except.error e => (reg, Except.error e)
  | Except.ok pid =>
      let reg1 := registerExecution reg process_id
        ⟨execution_id, pid, started_at, robot_file, step_mode⟩
      let reg2 := registryRemove reg1 process_id
      (reg2, Except.ok return_code)

/-- A `robot_code` payload as received by `create_robot_file`: either a string or an
already-parsed object. -/
inductive RobotCode where
  | str (s : String)
  | obj (j : Json)

/-- The deployment path prefix replaced by `create_robot_file`. -/
def linuxDevdata : String := "/home/ec2-user/robot/devdata/"

/-- The inner `replace_path` helper of `create_robot_file`. -/
def replace_path (workspace text : String) : String :=
  pyReplace text linuxDevdata (workspace ++ "/devdata/")

/-- `RobotExecutor.create_robot_file(process_id, robot_code)`, returning the target
path and the content written there.  `loads` stands for the standard library's
`json.loads`, `none` meaning a parse error; re-serialization (`json.dump`) is `dumps`
(indentation abstracted away).  For a string payload: patch the path prefix, try to
parse, and on `JSONDecodeError` write the **patched** text; for an object payload a
parse failure of the patched dump lands in the outer handler, which writes the
original payload. -/
def create_robot_file (workspace process_id : String) (robot_code : RobotCode)
    (loads : String → Option Json) : String × String :=
  let robot_file_path := workspace ++ "/robot_" ++ process_id ++ ".json"
  let content :=
    match robot_code with
    | RobotCode.str s =>
        let robot_code_patched := replace_path workspace s
        match loads robot_code_patched with
        | some robot_data => dumps robot_data
        | none => robot_code_patched
    | RobotCode.obj j =>
        match loads (replace_path workspace (dumps j)) with
        | some robot_data => dumps robot_data
        | none => dumps j
  (robot_file_path, content)

/- ===== Theorems: execution registry, spawn failure, script materializer ===== -/

/-- A first execution registered for key `"p"`. -/
def c7exec1 : ExecInfo := ⟨"exec-1", 100, 0, "robot_p.json", "all"⟩

/-- A second execution registered for the same key while the first is live. -/
def c7exec2 : ExecInfo := ⟨"exec-2", 101, 1, "robot_p.json", "step"⟩

/-- Claim C7 counterexample: registering an execution for a process key that already
holds a live execution does NOT fail with a ConflictError and does NOT leave the
registry unchanged — the plain dict assignment in `run_robot` silently overwrites the
existing entry with the new execution. -/
theorem c7_counterexample :
    registerExecution (registerExecution [] "p" c7exec1) "p" c7exec2
        ≠ registerExecution [] "p" c7exec1 ∧
    registryGet (registerExecution (registerExecution [] "p" c7exec1) "p" c7exec2) "p"
        = some c7exec2 := by
  constructor
  · decide
  · decide

/-- Claim C7 (amended): registering an execution for a process key always succeeds; if
a live execution already exists for the key its entry is overwritten with the new
execution (last-writer-wins), and entries under every other key are untouched.  (The
orchestration layer in main.py stops any existing execution before registering.) -/
theorem c7_register_amended (reg : Registry) (k : String) (v : ExecInfo) (k' : String) :
    registryGet (registerExecution reg k v) k' =
      if k' = k then some v else registryGet reg k' := by
  induction reg with
  | nil =>
      rcases eq_or_ne k' k with h | h
      · subst h; simp [registerExecution, registryGet, assocSet, dictGet]
      · simp [registerExecution, registryGet, assocSet, dictGet, h, h.symm]
  | cons p rest ih =>
      obtain ⟨k0, v0⟩ := p
      rcases eq_or_ne k0 k with h0 | h0
      · subst h0
        rcases eq_or_ne k0 k' with h | h
        · subst h; simp [registerExecution, registryGet, assocSet, dictGet]
        · simp [registerExecution, registryGet, assocSet, dictGet, h, h.symm]
      · rcases eq_or_ne k0 k' with h | h
        · subst h
          simp [registerExecution, registryGet, assocSet, dictGet, h0, Ne.symm h0]
        · simp only [registerExecution, registryGet] at ih
          simp [registerExecution, registryGet, assocSet, dictGet, h0, h, ih]

/-- Claim C8: when `subprocess.Popen` fails, the failure propagates to the caller of
`run_robot` as the error outcome, and the Execution Registry is returned exactly as it
was — no Execution is registered for the process key. -/
theorem c8_spawn_error (reg : Registry)
    (process_id robot_file step_mode execution_id : String) (started_at : Rat)
    (credentials_dir : Option String) (e : SpawnErr) (return_code : Int) :
    run_robot_exec reg process_id robot_file step_mode execution_id started_at
        credentials_dir (Except.error e) return_code = (reg, Except.error e) := rfl

/-- A robot-code payload that is not valid JSON and contains the deployment path
prefix that `create_robot_file` substitutes. -/
def c10payload : String := "robot /home/ec2-user/robot/devdata/token.json"

/-- Claim C10 counterexample: when JSON parsing of a string payload fails,
`create_robot_file` does not fall back to writing the original payload unmodified —
it writes the path-substituted text, which differs from the original whenever the
deployment prefix occurs in it. -/
theorem c10_counterexample :
    (create_robot_file "/ws" "P1" (RobotCode.str c10payload) (fun _ => none)).2
        ≠ c10payload ∧
    (create_robot_file "/ws" "P1" (RobotCode.str c10payload) (fun _ => none)).2
        = replace_path "/ws" c10payload := by
  constructor
  · decide
  · rfl

/-- Claim C10 (amended): `create_robot_file` is total and always returns the
deterministic path `workspace/robot_{process_id}.json`; for a string payload whose
path-patched text fails JSON parsing it writes that patched text (the original
payload with the deployment path prefix substituted), not the original unmodified. -/
theorem c10_materializer_amended (workspace process_id : String) (robot_code : RobotCode)
    (loads : String → Option Json) :
    (create_robot_file workspace process_id robot_code loads).1
        = workspace ++ "/robot_" ++ process_id ++ ".json" ∧
    (∀ s, robot_code = RobotCode.str s → loads (replace_path workspace s) = none →
        (create_robot_file workspace process_id robot_code loads).2
          = replace_path workspace s) := by
  refine ⟨rfl, ?_⟩
  intro s hc hl
  subst hc
  simp [create_robot_file, hl]

/-- Witness for C10 (amended) at a concrete payload whose parse fails. -/
theorem c10_materializer_amended_witness :
    (create_robot_file "/ws" "P1" (RobotCode.str c10payload) (fun _ => none)).1
        = "/ws" ++ "/robot_" ++ "P1" ++ ".json" ∧
    (create_robot_file "/ws" "P1" (RobotCode.str c10payload) (fun _ => none)).2
        = replace_path "/ws" c10payload := by
  refine ⟨(c10_materializer_amended "/ws" "P1" (RobotCode.str c10payload) (fun _ => none)).1,
          (c10_materializer_amended "/ws" "P1" (RobotCode.str c10payload)
            (fun _ => none)).2 c10payload rfl rfl⟩

/- ===== Theorems: the parallel-block transformer ===== -/

/-- Every node produced by the transform is a `"keyword"`-typed node, never PARALLEL. -/
theorem isParallel_transform_item (vars : List Json) (listener : String)
    (imports : List Json) (item : Json) :
    isParallel (transform_item vars listener imports item) = false := by
  cases h : isParallel item
  · have hx : transform_item vars listener imports item
        = Json.obj [("type", Json.str "keyword"),
                    ("name", getD item "name" (Json.str "")),
                    ("args", getD item "args" (Json.arr []))] := by
      simp [transform_item, h]
    rw [hx]; rfl
  · have hx : transform_item vars listener imports item
        = create_run_parallel_keyword item vars listener imports := by
      simp [transform_item, h]
    rw [hx]; rfl

/-- The output of `transform_json` contains no PARALLEL block. -/
theorem has_parallel_blocks_transform (d : Json) (l : String) :
    has_parallel_blocks (transform_json d l) = false := by
  simp [has_parallel_blocks, transform_json, testsOf, getD, getField, dictGet, asArr,
        check_body, bodyOf, transform_body, List.any_map, isParallel_transform_item]

/-- Claim C5: a document without PARALLEL blocks passes through the detect-then-
transform pipeline unchanged; in particular any transform output has no PARALLEL
block, so the pipeline is idempotent. -/
theorem c5_noop_idempotent (d : Json) (l : String) :
    (has_parallel_blocks d = false → run_robot_doc d l = d) ∧
    has_parallel_blocks (transform_json d l) = false ∧
    run_robot_doc (run_robot_doc d l) l = run_robot_doc d l := by
  refine ⟨?_, has_parallel_blocks_transform d l, ?_⟩
  · intro h; simp [run_robot_doc, h]
  · cases h : has_parallel_blocks d with
    | true => simp [run_robot_doc, h, has_parallel_blocks_transform]
    | false => simp [run_robot_doc, h]

/-- A concrete already-transformed-shape document with no PARALLEL block. -/
def c5doc : Json :=
  Json.obj [("name", Json.str "S"),
            ("tests", Json.arr [Json.obj [("name", Json.str "T"),
              ("body", Json.arr [Json.obj [("type", Json.str "keyword"),
                ("name", Json.str "Log"), ("args", Json.arr [Json.str "x"])]])]])]

/-- Witness for C5 at a concrete PARALLEL-free document. -/
theorem c5_noop_idempotent_witness :
    run_robot_doc c5doc "" = c5doc ∧
    has_parallel_blocks (transform_json c5doc "") = false ∧
    run_robot_doc (run_robot_doc c5doc "") "" = run_robot_doc c5doc "" := by
  refine ⟨(c5_noop_idempotent c5doc "").1 ?h, (c5_noop_idempotent c5doc "").2.1,
          (c5_noop_idempotent c5doc "").2.2⟩
  case h => rfl

/-- `branches_data` has one entry per branch. -/
theorem branchEntriesAux_length (k : Nat) (l : List Json) :
    (branchEntriesAux k l).length = l.length := by
  induction l generalizing k with
  | nil => rfl
  | cons br rest ih => simp [branchEntriesAux, ih]

/-- The `i`-th entry of `branches_data` built from counter `k`: positional name,
verbatim body. -/
theorem branchEntriesAux_getElem? (l : List Json) (k i : Nat) (br : Json)
    (h : l[i]? = some br) :
    (branchEntriesAux k l)[i]? =
      some (Json.obj [("name", Json.str ("Branch_" ++ toString (k + i + 1))),
                      ("body", getD br "body" (Json.arr []))]) := by
  induction l generalizing k i with
  | nil => simp at h
  | cons x rest ih =>
      cases i with
      | zero =>
          simp only [List.getElem?_cons_zero, Option.some.injEq] at h
          subst h
          simp [branchEntriesAux]
      | succ n =>
          simp only [List.getElem?_cons_succ] at h
          have hrec := ih (k + 1) n h
          rw [show k + 1 + n + 1 = k + (n + 1) + 1 from by omega] at hrec
          simp only [branchEntriesAux, List.getElem?_cons_succ]
          exact hrec

/-- Claim C4: the transform rewrites each test body pointwise; every PARALLEL node at
position `i` becomes the synthetic `Run Parallel` invocation for that block, whose
first argument is the escaped serialization of its branch list; that list has exactly
one entry per branch, named positionally `Branch_<i+1>` and carrying the branch body
verbatim, in declared order. -/
theorem c4_parallel_transform (d : Json) (l : String) :
    ((testsOf (transform_json d l)).map bodyOf
        = (testsOf d).map fun t =>
            transform_body (bodyOf t) (valid_variables_of d) l (imports_of d)) ∧
    (∀ (body vars imports : List Json) (listener : String),
        (transform_body body vars listener imports).length = body.length) ∧
    (∀ (body vars imports : List Json) (listener : String) (i : Nat) (item : Json),
        body[i]? = some item → isParallel item = true →
        (transform_body body vars listener imports)[i]?
          = some (create_run_parallel_keyword item vars listener imports)) ∧
    (∀ (block : Json) (vars imports : List Json) (listener : String),
        getField (create_run_parallel_keyword block vars listener imports) "args"
          = some (Json.arr
              [Json.str (escapeRobot (dumps (Json.arr (branchEntries block)))),
               Json.str (escapeRobot (dumps (Json.obj (renderVars (varsData vars))))),
               Json.str listener,
               Json.str (escapeRobot (dumps (Json.arr imports)))])) ∧
    (∀ (block : Json), (branchEntries block).length = (getBranches block).length) ∧
    (∀ (block : Json) (i : Nat) (br : Json), (getBranches block)[i]? = some br →
        (branchEntries block)[i]?
          = some (Json.obj [("name", Json.str ("Branch_" ++ toString (i + 1))),
                            ("body", getD br "body" (Json.arr []))])) := by
  refine ⟨?_, ?_, ?_, ?_, ?_, ?_⟩
  · simp only [transform_json, testsOf, getD, getField, dictGet, asArr]
    simp [List.map_map]
    intro t _
    simp [bodyOf, getD, getField, dictGet, asArr]
  · intro body vars listener imports
    simp [transform_body]
  · intro body vars listener imports i item h hp
    simp [transform_body, List.getElem?_map, h, transform_item, hp]
  · intro block vars listener imports
    simp [create_run_parallel_keyword, getField, dictGet]
  · intro block
    simpa [branchEntries] using branchEntriesAux_length 0 (getBranches block)
  · intro block i br h
    simpa [branchEntries] using branchEntriesAux_getElem? (getBranches block) 0 i br h

/-- First branch of the concrete PARALLEL block. -/
def c4branch1 : Json := Json.obj [("body", Json.arr [Json.str "A"])]

/-- Second branch of the concrete PARALLEL block. -/
def c4branch2 : Json := Json.obj [("body", Json.arr [Json.str "B"])]

/-- A concrete PARALLEL block with two branches. -/
def c4block : Json :=
  Json.obj [("type", Json.str "PARALLEL"), ("branches", Json.arr [c4branch1, c4branch2])]

/-- A concrete test holding the PARALLEL block. -/
def c4test : Json := Json.obj [("name", Json.str "T"), ("body", Json.arr [c4block])]

/-- A concrete document with one PARALLEL block of two branches. -/
def c4doc : Json :=
  Json.obj [("name", Json.str "S"), ("tests", Json.arr [c4test])]

/-- Witness for C4 at the concrete two-branch document. -/
theorem c4_parallel_transform_witness :
    ((testsOf (transform_json c4doc "L")).map bodyOf
        = (testsOf c4doc).map fun t =>
            transform_body (bodyOf t) (valid_variables_of c4doc) "L" (imports_of c4doc)) ∧
    (transform_body (bodyOf c4test) (valid_variables_of c4doc) "L" (imports_of c4doc))[0]?
        = some (create_run_parallel_keyword c4block (valid_variables_of c4doc) "L"
                  (imports_of c4doc)) ∧
    (branchEntries c4block).length = (getBranches c4block).length ∧
    (branchEntries c4block)[1]?
        = some (Json.obj [("name", Json.str ("Branch_" ++ toString (1 + 1))),
                          ("body", getD c4branch2 "body" (Json.arr []))]) := by
  refine ⟨(c4_parallel_transform c4doc "L").1,
          (c4_parallel_transform c4doc "L").2.2.1 (bodyOf c4test) (valid_variables_of c4doc)
            (imports_of c4doc) "L" 0 c4block ?h1 ?h2,
          (c4_parallel_transform c4doc "L").2.2.2.2.1 c4block,
          (c4_parallel_transform c4doc "L").2.2.2.2.2 c4block 1 c4branch2 ?h3⟩
  case h1 => rfl
  case h2 => rfl
  case h3 => rfl

/-- A concrete PARALLEL node. -/
def c6par : Json := Json.obj [("type", Json.str "PARALLEL"), ("branches", Json.arr [])]

/-- A concrete non-PARALLEL node carrying a field the transform does not keep. -/
def c6node : Json := Json.obj [("name", Json.str "Log"), ("note", Json.str "extra")]

/-- A concrete test whose body holds the PARALLEL node and the extra-field node. -/
def c6test : Json := Json.obj [("name", Json.str "T"), ("body", Json.arr [c6par, c6node])]

/-- A concrete document containing a PARALLEL block. -/
def c6doc : Json := Json.obj [("tests", Json.arr [c6test])]

/-- Claim C6 counterexample: in a document that does contain a PARALLEL block, a
non-PARALLEL statement node does NOT pass through the transform with identical
content — `transform_body` rebuilds it as `{"type": "keyword", "name": ..., "args":
...}`, dropping every other field (here `"note"`). -/
theorem c6_counterexample :
    has_parallel_blocks c6doc = true ∧
    testsOf c6doc = [c6test] ∧
    (transform_body (bodyOf c6test) (valid_variables_of c6doc) "" (imports_of c6doc))[1]?
        ≠ some c6node := by
  refine ⟨rfl, rfl, ?_⟩
  simp [transform_body, List.getElem?_map, bodyOf, c6test, c6par, c6node, getD, getField,
        dictGet, asArr, transform_item, isParallel]

/-- Claim C6 (amended): a non-PARALLEL node at position `i` is rewritten to exactly
`{"type": "keyword", "name": <its name, default "">, "args": <its args, default []>}`
(other fields dropped), at the same position, and the transform preserves the number
and relative order of sibling statements. -/
theorem c6_passthrough_amended (body vars : List Json) (listener : String)
    (imports : List Json) (i : Nat) (item : Json) (h : body[i]? = some item)
    (hnp : isParallel item = false) :
    (transform_body body vars listener imports)[i]?
        = some (Json.obj [("type", Json.str "keyword"),
                          ("name", getD item "name" (Json.str "")),
                          ("args", getD item "args" (Json.arr []))]) ∧
    (transform_body body vars listener imports).length = body.length := by
  constructor
  · simp [transform_body, List.getElem?_map, h, transform_item, hnp]
  · simp [transform_body]

/-- Witness for C6 (amended) at the concrete extra-field node. -/
theorem c6_passthrough_amended_witness :
    (transform_body [c6par, c6node] [] "" [])[1]?
        = some (Json.obj [("type", Json.str "keyword"),
                          ("name", getD c6node "name" (Json.str "")),
                          ("args", getD c6node "args" (Json.arr []))]) ∧
    (transform_body [c6par, c6node] [] "" []).length = [c6par, c6node].length :=
  c6_passthrough_amended [c6par, c6node] [] "" [] 1 c6node rfl rfl

/- ===== Theorems: the step-synchronization event protocol ===== -/

/-- Both components of `end_keyword` carry the freshly incremented `_seq`, whichever
branch (fatal abort / step gate / all-mode) is taken. -/
theorem end_keyword_seq (cfg : Config) (st : PLState) (name : String) (attrs : Json)
    (t : Rat) :
    (end_keyword cfg st name attrs t).2.seq = st.seq + 1 ∧
    (end_keyword cfg st name attrs t).1.seq = st.seq + 1 := by
  refine ⟨rfl, ?_⟩
  simp only [end_keyword]
  split
  · rfl
  · split
    · split <;> rfl
    · rfl

/-- Each callback emits no event (a continuation signal) or exactly one event whose
`seq` is the freshly incremented counter. -/
theorem stepCb_seq_events (cfg : Config) (st : PLState) (cb : Callback) :
    ((stepCb cfg st cb).2 = [] ∧ (stepCb cfg st cb).1.seq = st.seq) ∨
    (∃ ev, (stepCb cfg st cb).2 = [ev] ∧ ev.seq = st.seq + 1 ∧
           (stepCb cfg st cb).1.seq = st.seq + 1) := by
  cases cb with
  | startSuite name attrs t => exact Or.inr ⟨_, rfl, rfl, rfl⟩
  | endSuite name attrs t => exact Or.inr ⟨_, rfl, rfl, rfl⟩
  | startTest name attrs t => exact Or.inr ⟨_, rfl, rfl, rfl⟩
  | endTest name attrs t => exact Or.inr ⟨_, rfl, rfl, rfl⟩
  | startKeyword name attrs t => exact Or.inr ⟨_, rfl, rfl, rfl⟩
  | endKeyword name attrs t =>
      exact Or.inr ⟨(end_keyword cfg st name attrs t).2, rfl,
                    (end_keyword_seq cfg st name attrs t).1,
                    (end_keyword_seq cfg st name attrs t).2⟩
  | logMessage message t => exact Or.inr ⟨_, rfl, rfl, rfl⟩
  | continueSignal =>
      refine Or.inl ⟨rfl, ?_⟩
      simp only [stepCb, on_continue_step]
      split <;> rfl

/-- A dead process (after `os._exit`) runs no callback and emits nothing. -/
theorem runCbs_exited (cfg : Config) (st : PLState) (cbs : List Callback) (n : Nat)
    (h : st.exited = some n) : runCbs cfg st cbs = [] := by
  cases cbs <;> simp [runCbs, h]

/-- The sequence numbers of any trace are contiguous, starting right after the
current counter value. -/
theorem runCbs_seqs (cfg : Config) (cbs : List Callback) : ∀ st : PLState,
    (runCbs cfg st cbs).map Event.seq
      = List.range' (st.seq + 1) (runCbs cfg st cbs).length := by
  induction cbs with
  | nil => intro st; simp [runCbs]
  | cons cb rest ih =>
      intro st
      cases hex : st.exited with
      | some n => simp [runCbs, hex]
      | none =>
          rcases stepCb_seq_events cfg st cb with ⟨h2, h3⟩ | ⟨ev, h2, h3, h4⟩
          · simp only [runCbs, hex]
            rw [h2]
            simp only [List.nil_append]
            rw [ih (stepCb cfg st cb).1, h3]
          · simp only [runCbs, hex]
            rw [h2]
            simp only [List.cons_append, List.nil_append, List.map_cons, List.length_cons,
                       List.range'_succ]
            rw [ih (stepCb cfg st cb).1, h3, h4]

/-- Claim C1: within one process lifetime the n-th emitted event (over every event
type, with or without a live reporting connection) carries `seq = n`: the sequence
numbers of the whole trace are exactly `1, 2, 3, ...` with no gap and no reuse. -/
theorem c1_seq_contiguous (cfg : Config) (connected : Bool) (cbs : List Callback) :
    (runCbs cfg (initState cfg connected) cbs).map Event.seq
      = List.range' 1 (runCbs cfg (initState cfg connected) cbs).length := by
  have h := runCbs_seqs cfg cbs (initState cfg connected)
  simpa [initState] using h

/-- Claim C2: a step-end callback whose status is `"FAIL"` makes the protocol emit a
final STEP_END event carrying the failure (status `"ERROR"`), disconnect the
reporting connection, and terminate the process via `os._exit(1)`; whatever callbacks
would have followed in that lifetime, no further event (no STEP_START, nothing) is
ever emitted after that STEP_END. -/
theorem c2_fail_fast (cfg : Config) (st : PLState) (name : String) (attrs : Json)
    (t : Rat) (post : List Callback) (h1 : st.exited = none)
    (h2 : getField attrs "status" = some (Json.str "FAIL")) :
    runCbs cfg st (Callback.endKeyword name attrs t :: post)
        = [(end_keyword cfg st name attrs t).2] ∧
    (end_keyword cfg st name attrs t).2.type = "STEP_END" ∧
    dictGet (end_keyword cfg st name attrs t).2.payload "status"
        = some (Json.str "ERROR") ∧
    (end_keyword cfg st name attrs t).1.sioConnected = false ∧
    (end_keyword cfg st name attrs t).1.exited = some 1 := by
  have hfail : isFailStatus (getField attrs "status") = true := by rw [h2]; rfl
  have hss : status_success (getField attrs "status") = "ERROR" := by rw [h2]; rfl
  have hexit : (end_keyword cfg st name attrs t).1.exited = some 1 := by
    simp [end_keyword, hfail]
  have hsio : (end_keyword cfg st name attrs t).1.sioConnected = false := by
    simp [end_keyword, hfail]
  have hpay : dictGet (end_keyword cfg st name attrs t).2.payload "status"
      = some (Json.str (status_success (getField attrs "status"))) := rfl
  refine ⟨?_, rfl, by rw [hpay, hss], hsio, hexit⟩
  simp only [runCbs, h1, stepCb]
  rw [runCbs_exited cfg _ post 1 hexit]
  simp

/-- Attributes of a failing step. -/
def c2attrs : Json := Json.obj [("status", Json.str "FAIL")]

/-- Configuration of the witness process. -/
def c2cfg : Config := ⟨"all", "P"⟩

/-- Witness state: a freshly initialized listener. -/
def c2state : PLState := initState c2cfg true

/-- Witness for C2: a failing step followed by a pending step start emits only the
failing STEP_END. -/
theorem c2_fail_fast_witness :
    runCbs c2cfg c2state
        (Callback.endKeyword "K" c2attrs 1 :: [Callback.startKeyword "K2" Json.null 2])
        = [(end_keyword c2cfg c2state "K" c2attrs 1).2] ∧
    (end_keyword c2cfg c2state "K" c2attrs 1).2.type = "STEP_END" ∧
    dictGet (end_keyword c2cfg c2state "K" c2attrs 1).2.payload "status"
        = some (Json.str "ERROR") ∧
    (end_keyword c2cfg c2state "K" c2attrs 1).1.sioConnected = false ∧
    (end_keyword c2cfg c2state "K" c2attrs 1).1.exited = some 1 :=
  c2_fail_fast c2cfg c2state "K" c2attrs 1 [Callback.startKeyword "K2" Json.null 2] rfl rfl

/-- Claim C3: the step gate.  Under `stepMode = "step"`, after a non-failing step end
the protocol either consumes a previously delivered continuation signal (set flag:
the wait returns at once and the flag is cleared, so the signal cannot pre-satisfy a
second wait) or blocks until a signal arrives (the arriving signal wakes the wait and
is immediately cleared).  A signal delivered while no wait is in progress is kept for
the next wait.  Under `stepMode = "all"` the gate never blocks and no signal is
consumed or required. -/
theorem c3_step_gate (cfg : Config) (st : PLState) (name : String) (attrs : Json)
    (t : Rat) (hnf : isFailStatus (getField attrs "status") = false) :
    (cfg.stepMode = "step" → st.continueFlag = true →
        ((end_keyword cfg st name attrs t).1.waiting = false ∧
         (end_keyword cfg st name attrs t).1.continueFlag = false)) ∧
    (cfg.stepMode = "step" → st.continueFlag = false →
        ((end_keyword cfg st name attrs t).1.waiting = true ∧
         (on_continue_step (end_keyword cfg st name attrs t).1).waiting = false ∧
         (on_continue_step (end_keyword cfg st name attrs t).1).continueFlag = false)) ∧
    (st.waiting = false → (on_continue_step st).continueFlag = true) ∧
    (cfg.stepMode = "all" →
        ((end_keyword cfg st name attrs t).1.waiting = st.waiting ∧
         (end_keyword cfg st name attrs t).1.continueFlag = st.continueFlag)) := by
  refine ⟨?_, ?_, ?_, ?_⟩
  · intro hm hf
    constructor <;> simp [end_keyword, emit, hnf, hm, hf]
  · intro hm hf
    have hw : (end_keyword cfg st name attrs t).1.waiting = true := by
      simp [end_keyword, emit, hnf, hm, hf]
    exact ⟨hw, by simp [on_continue_step, hw], by simp [on_continue_step, hw]⟩
  · intro hw
    simp [on_continue_step, hw]
  · intro hm
    have hne : cfg.stepMode ≠ "step" := by rw [hm]; decide
    constructor <;> simp [end_keyword, emit, hnf, hne]

/-- Attributes of a passing step. -/
def c3attrs : Json := Json.obj [("status", Json.str "PASS")]

/-- Step-mode configuration for the gate witness. -/
def c3stepCfg : Config := ⟨"step", "P"⟩

/-- All-mode configuration for the gate witness. -/
def c3allCfg : Config := ⟨"all", "P"⟩

/-- Witness state with a pre-delivered continuation signal. -/
def c3stA : PLState :=
  { seq := 0, sioConnected := true, tstack := [], logstack := [],
    continueFlag := true, waiting := false, exited := none }

/-- Witness state with no pending continuation signal. -/
def c3stB : PLState :=
  { seq := 0, sioConnected := true, tstack := [], logstack := [],
    continueFlag := false, waiting := false, exited := none }

/-- Witness for C3 at concrete states: signal consumption, blocking and wake-up, and
the permanently open all-mode gate. -/
theorem c3_step_gate_witness :
    ((end_keyword c3stepCfg c3stA "K" c3attrs 1).1.waiting = false ∧
     (end_keyword c3stepCfg c3stA "K" c3attrs 1).1.continueFlag = false) ∧
    ((end_keyword c3stepCfg c3stB "K" c3attrs 1).1.waiting = true ∧
     (on_continue_step (end_keyword c3stepCfg c3stB "K" c3attrs 1).1).waiting = false ∧
     (on_continue_step (end_keyword c3stepCfg c3stB "K" c3attrs 1).1).continueFlag
        = false) ∧
    ((on_continue_step c3stB).continueFlag = true) ∧
    ((end_keyword c3allCfg c3stB "K" c3attrs 1).1.waiting = c3stB.waiting ∧
     (end_keyword c3allCfg c3stB "K" c3attrs 1).1.continueFlag = c3stB.continueFlag) :=
  ⟨(c3_step_gate c3stepCfg c3stA "K" c3attrs 1 rfl).1 rfl rfl,
   (c3_step_gate c3stepCfg c3stB "K" c3attrs 1 rfl).2.1 rfl rfl,
   (c3_step_gate c3stepCfg c3stB "K" c3attrs 1 rfl).2.2.1 rfl,
   (c3_step_gate c3allCfg c3stB "K" c3attrs 1 rfl).2.2.2 rfl⟩

/-- Claim C9: in the STEP_END event, `durationMs` is a non-negative integer whenever a
matching start timestamp was pushed (and wall-clock time did not go backwards), and
is null when the matching start is missing; `message` is the first log entry recorded
for that step's frame, null when no log was recorded. -/
theorem c9_step_end_fields (cfg : Config) (st : PLState) (name : String) (attrs : Json)
    (t : Rat) :
    (∀ (t0 : Rat) (rest : List Rat), st.tstack = t0 :: rest → 0 < t0 → t0 ≤ t →
        ((dictGet (end_keyword cfg st name attrs t).2.payload "data").bind
            (fun dj => getField dj "durationMs")
          = some (Json.num (pyInt ((t - t0) * 1000))) ∧
         0 ≤ pyInt ((t - t0) * 1000))) ∧
    (st.tstack = [] →
        (dictGet (end_keyword cfg st name attrs t).2.payload "data").bind
            (fun dj => getField dj "durationMs")
          = some Json.null) ∧
    ((dictGet (end_keyword cfg st name attrs t).2.payload "data").bind
        (fun dj => getField dj "message")
      = some (optJson ((st.logstack.head?.getD []).head?.bind LogEntry.message))) := by
  refine ⟨?_, ?_, ?_⟩
  · intro t0 rest hst h0 hle
    have hne : t0 ≠ 0 := ne_of_gt h0
    have hq : 0 ≤ (t - t0) * 1000 := by
      have ha : (0:Rat) ≤ t - t0 := by linarith
      have hb : (0:Rat) ≤ 1000 := by norm_num
      exact mul_nonneg ha hb
    constructor
    · simp [end_keyword, emit, hst, hne, dictGet, getField]
    · have hfl : pyInt ((t - t0) * 1000) = ⌊(t - t0) * 1000⌋ := by simp [pyInt, hq]
      rw [hfl]
      exact Int.floor_nonneg.mpr hq
  · intro hst
    simp [end_keyword, emit, hst, dictGet, getField]
  · cases hl : (st.logstack.head?).getD [] with
    | nil => simp [end_keyword, emit, hl, dictGet, getField, optJson]
    | cons e es => simp [end_keyword, emit, hl, dictGet, getField, optJson]

/-- The single log entry recorded for the witness step. -/
def c9log : LogEntry := ⟨some (Json.str "INFO"), some (Json.str "hello")⟩

/-- Witness listener state: one pushed start time and one recorded log. -/
def c9state : PLState :=
  { seq := 0, sioConnected := true, tstack := [1], logstack := [[c9log]],
    continueFlag := false, waiting := false, exited := none }

/-- Attributes of the witness step end. -/
def c9attrs : Json := Json.obj [("status", Json.str "PASS")]

/-- Configuration of the witness process for C9. -/
def c9cfg : Config := ⟨"all", "P"⟩

/-- Witness for C9 at a concrete step that started at time 1 and ended at time 2
with one recorded log. -/
theorem c9_step_end_fields_witness :
    ((dictGet (end_keyword c9cfg c9state "K" c9attrs 2).2.payload "data").bind
        (fun dj => getField dj "durationMs")
      = some (Json.num (pyInt ((2 - 1) * 1000))) ∧
     0 ≤ pyInt (((2:Rat) - 1) * 1000)) ∧
    ((dictGet (end_keyword c9cfg c9state "K" c9attrs 2).2.payload "data").bind
        (fun dj => getField dj "message")
      = some (optJson ((c9state.logstack.head?.getD []).head?.bind LogEntry.message))) :=
  ⟨(c9_step_end_fields c9cfg c9state "K" c9attrs 2).1 1 [] rfl (by norm_num) (by norm_num),
   (c9_step_end_fields c9cfg c9state "K" c9attrs 2).2.2⟩
